import Mathlib

/-!
Shallow embedding of the `babble` repository's RollingList
(`src/common/rolling_list.go`) and NetworkTransport
(`src/net/net_transport.go`), with theorems settling the specification
claims about them.
-/

namespace Babble

/-! ## RollingList (src/common/rolling_list.go)

Go state: `size int`, `tot int`, `items []interface{}`.  We model the
element type as a type parameter, `size` and `tot` as `Nat` (they are
counts, never negative in any constructed state), and `items` as a list.
-/

/-- The two sentinel errors `ErrTooLate` and `ErrKeyNotFound` of
`rolling_list.go`. -/
inductive RollErr where
  | tooLate
  | keyNotFound
deriving DecidableEq, Repr

/-- The `RollingList` struct. -/
structure RollingList (α : Type) where
  size : Nat
  tot : Nat
  items : List α
deriving DecidableEq, Repr

variable {α : Type}

/-- `NewRollingList(size)`: empty buffer, `tot = 0`. -/
def newRollingList (size : Nat) : RollingList α :=
  { size := size, tot := 0, items := [] }

/-- `GetItem(index)` from `rolling_list.go`:
`oldestCached := tot - len(items)`; `index < oldestCached` gives
`ErrTooLate`; `findex := index - oldestCached`; `findex >= len(items)`
gives `ErrKeyNotFound`; otherwise the buffered item `items[findex]`.
The index is an `int` in Go, hence `Int` here. -/
def getItem (r : RollingList α) (index : Int) : Except RollErr α :=
  if h1 : index < (r.tot : Int) - r.items.length then
    .error .tooLate
  else if h2 : (r.items.length : Int) ≤ index - ((r.tot : Int) - r.items.length) then
    .error .keyNotFound
  else
    .ok (r.items.get ⟨(index - ((r.tot : Int) - r.items.length)).toNat, by omega⟩)

/-- `Roll()` from `rolling_list.go`: keep `items[size:]`, i.e. drop the
oldest `size` items.  This is the total model of the slice expression;
`rollChecked` below models its bounds check. -/
def roll (r : RollingList α) : RollingList α :=
  { r with items := r.items.drop r.size }

/-- `Roll()` with the Go slice bounds check made explicit: the slice
expression `r.items[r.size:]` requires `r.size ≤ len(r.items)` and
panics otherwise; `none` models the panic. -/
def rollChecked (r : RollingList α) : Option (RollingList α) :=
  if r.size ≤ r.items.length then some (roll r) else none

/-- `Add(item)` from `rolling_list.go`: roll when `len(items) >= 2*size`,
then append and increment `tot`. -/
def add (r : RollingList α) (x : α) : RollingList α :=
  let r' := if 2 * r.size ≤ r.items.length then roll r else r
  { r' with items := r'.items ++ [x], tot := r'.tot + 1 }

/-- `Add(item)` with the slice bounds check of the inner `Roll` made
explicit (`none` models a panic inside `Add`). -/
def addChecked (r : RollingList α) (x : α) : Option (RollingList α) :=
  if 2 * r.size ≤ r.items.length then
    (rollChecked r).map fun r' => { r' with items := r'.items ++ [x], tot := r'.tot + 1 }
  else
    some { r with items := r.items ++ [x], tot := r.tot + 1 }

/-- A sequence of `Add` calls. -/
def addAll (r : RollingList α) (l : List α) : RollingList α :=
  l.foldl add r

/-- A sequence of `Add` calls, also counting how many times `Add`
triggered a compaction (`Roll`). -/
def addAllCount (r : RollingList α) (l : List α) : RollingList α × Nat :=
  l.foldl (fun p x => (add p.1 x, if 2 * p.1.size ≤ p.1.items.length then p.2 + 1 else p.2))
    (r, 0)

/-! ## NetworkTransport (src/net/net_transport.go)

We model the transport's observable state: the connection pool (a map
from target address to the ordered slice of idle connections, modelled
as a total function defaulting to the empty list, matching Go's map
read of a missing key), the `shutdown` flag, whether the broadcast
channel `shutdownCh` has been closed, and whether the stream layer has
been closed.  Connections are identified by a target string and a
numeric id.  External I/O (dialing, the gob encode/decode on a real
socket) is modelled by oracles describing the outcome of each stage of
an outbound call. -/

/-- A `netConn`: the wrapped physical connection.  The reader/writer
and codec pair carry no observable state in our claims, so a connection
is its target plus an identity. -/
structure NetConn where
  target : String
  id : Nat
deriving DecidableEq, Repr

/-- Observable state of a `NetworkTransport`. -/
structure TransportState where
  connPool : String → List NetConn
  maxPool : Nat
  shutdown : Bool
  shutdownChClosed : Bool
  streamClosed : Bool

/-- `IsShutdown()`: a non-blocking select on `shutdownCh`; true exactly
when the channel has been closed. -/
def isShutdown (s : TransportState) : Bool :=
  s.shutdownChClosed

/-- `Close()` from `net_transport.go`.  Closing a Go channel twice
panics, which `none` models; the `!n.shutdown` guard is what prevents
it.  The first close closes `shutdownCh` and the stream layer and sets
the flag; `Close` always returns a nil error. -/
def transportClose (s : TransportState) : Option TransportState :=
  if s.shutdown = false then
    if s.shutdownChClosed = true then
      none
    else
      some { s with shutdown := true, shutdownChClosed := true, streamClosed := true }
  else
    some s

/-- `getPooledConn(target)`: pop the last idle connection of the
target's slice (or `none` when absent or empty), together with the
updated transport state. -/
def getPooledConn (s : TransportState) (target : String) : Option NetConn × TransportState :=
  let conns := s.connPool target
  match conns.getLast? with
  | none => (none, s)
  | some c =>
    (some c,
      { s with connPool := fun t => if t = target then conns.dropLast else s.connPool t })

/-- `returnConn(conn)`: admit the connection to its target's idle slice
only when the transport is not shut down and the slice is below
`maxPool`; otherwise `Release` (close) it.  The boolean reports whether
the connection was released. -/
def returnConn (s : TransportState) (conn : NetConn) : TransportState × Bool :=
  let conns := s.connPool conn.target
  if isShutdown s = false ∧ conns.length < s.maxPool then
    ({ s with connPool := fun t => if t = conn.target then conns ++ [conn] else s.connPool t },
      false)
  else
    (s, true)

/-- Outcome of `stream.Dial` for an outbound call. -/
inductive DialOutcome where
  | fail
  | ok (c : NetConn)
deriving DecidableEq, Repr

/-- Outcome of `sendRPC`: each of the three steps (`WriteByte` of the
rpc type, `Encode` of the args, `Flush`) can fail, and any failure
releases the connection inside `sendRPC`. -/
inductive SendOutcome where
  | writeByteFail
  | encodeFail
  | flushFail
  | ok
deriving DecidableEq, Repr

/-- Outcome of `decodeResponse`: decoding the error string can fail,
decoding the response value can fail, or both succeed yielding the
error string `e` and the response value `v`. -/
inductive DecodeOutcome (α : Type) where
  | errStringFail
  | respFail
  | ok (e : String) (v : α)
deriving DecidableEq, Repr

/-- The external world an outbound call interacts with. -/
structure Oracle (α : Type) where
  dial : DialOutcome
  send : SendOutcome
  decode : DecodeOutcome α

/-- The error returned by `genericRPC`. -/
inductive RPCError where
  | dialErr
  | sendErr
  | decodeErr
  | rpcErr (msg : String)
deriving DecidableEq, Repr

/-- Result of an outbound call: the returned error (`none` = nil), the
decoded response value if any, the final transport state, the
connection the call used (if it got one), whether that connection was
released during send/decode, whether it was offered back to the pool
via `returnConn`, and whether `returnConn` itself released it. -/
structure RPCResult (α : Type) where
  err : Option RPCError
  resp : Option α
  state : TransportState
  conn : Option NetConn
  releasedInCall : Bool
  offered : Bool
  releasedOnReturn : Bool

/-- The send/decode/return part of `genericRPC` once a connection `c`
has been obtained: `sendRPC` (any failure releases the connection and
returns the error), then `decodeResponse` (failure of either decode
releases the connection, `canReturn = false`), and on `canReturn` the
connection is offered back via `returnConn`; a non-empty decoded error
string becomes the call's returned error. -/
def finishRPC (s : TransportState) (c : NetConn) (o : Oracle α) : RPCResult α :=
  match o.send with
  | .writeByteFail => ⟨some .sendErr, none, s, some c, true, false, false⟩
  | .encodeFail => ⟨some .sendErr, none, s, some c, true, false, false⟩
  | .flushFail => ⟨some .sendErr, none, s, some c, true, false, false⟩
  | .ok =>
    match o.decode with
    | .errStringFail => ⟨some .decodeErr, none, s, some c, true, false, false⟩
    | .respFail => ⟨some .decodeErr, none, s, some c, true, false, false⟩
    | .ok e v =>
      let p := returnConn s c
      ⟨if e = "" then none else some (.rpcErr e), some v, p.1, some c, false, true, p.2⟩

/-- `genericRPC` (the body of `Sync`): get a connection — pooled if
available, else dial (a dial failure returns the error with no
connection touched) — then `finishRPC`.  A freshly dialed connection is
wrapped with the call's target, as in `getConn`. -/
def genericRPC (s : TransportState) (target : String) (o : Oracle α) : RPCResult α :=
  match getPooledConn s target with
  | (some c, s1) => finishRPC s1 c o
  | (none, s1) =>
    match o.dial with
    | .fail => ⟨some .dialErr, none, s1, none, false, false, false⟩
    | .ok c => finishRPC s1 { c with target := target } o

/-- A transport state identical to `s` but with the shutdown signal
cleared; used to state that the outbound path never consults the
shutdown signal except in `returnConn`. -/
def clearShutdown (s : TransportState) : TransportState :=
  { s with shutdown := false, shutdownChClosed := false }

/-! ### Wire format of a reply (handleCommand / decodeResponse)

The gob stream of a response is modelled as the list of encoded values
it carries: each `enc.Encode` appends one item. -/

/-- One gob-encoded item on the wire. -/
inductive GobItem (α : Type) where
  | str (s : String)
  | val (v : α)
deriving DecidableEq, Repr

/-- The reply the consumer pushes on the RPC's response channel:
`RPCResponse` pairs a response value with an optional error. -/
structure RPCResponse (α : Type) where
  response : α
  error : Option String
deriving DecidableEq, Repr

/-- The error string `handleCommand` computes: `""` when the reply
carries no error, else the error's text. -/
def errString (resp : RPCResponse α) : String :=
  match resp.error with
  | some e => e
  | none => ""

/-- One `enc.Encode` call: append one item to the wire. -/
def encStep (wire : List (GobItem α)) (it : GobItem α) : List (GobItem α) :=
  wire ++ [it]

/-- The reply stage of `handleCommand`: encode the error string first,
the response value second, in that fixed order. -/
def handleReply (wire : List (GobItem α)) (resp : RPCResponse α) : List (GobItem α) :=
  encStep (encStep wire (.str (errString resp))) (.val resp.response)

/-- The read side of `decodeResponse` on the wire: it decodes an error
string first (failing on anything else), then a response value. -/
def decodeResponseWire (wire : List (GobItem α)) : Option (String × α) :=
  match wire with
  | .str e :: .val v :: _ => some (e, v)
  | _ => none

/-! ### Sample states used by the concrete witnesses -/

/-- A freshly constructed transport: empty pool, nothing shut down. -/
def initTransport (maxPool : Nat) : TransportState :=
  { connPool := fun _ => [], maxPool := maxPool, shutdown := false,
    shutdownChClosed := false, streamClosed := false }

/-- A transport on which `Close` has completed. -/
def closedTransport (maxPool : Nat) : TransportState :=
  { connPool := fun _ => [], maxPool := maxPool, shutdown := true,
    shutdownChClosed := true, streamClosed := true }

/-- A sample connection. -/
def connA : NetConn := { target := "a", id := 0 }

/-! ## Helper lemmas for RollingList -/

theorem addAll_cons (r : RollingList α) (x : α) (l : List α) :
    addAll r (x :: l) = addAll (add r x) l := rfl

theorem add_size (r : RollingList α) (x : α) : (add r x).size = r.size := by
  unfold add roll
  split <;> rfl

theorem add_tot (r : RollingList α) (x : α) : (add r x).tot = r.tot + 1 := by
  unfold add roll
  split <;> rfl

theorem addAll_size (l : List α) (r : RollingList α) : (addAll r l).size = r.size := by
  induction l generalizing r with
  | nil => rfl
  | cons x l ih => rw [addAll_cons, ih, add_size]

theorem addAll_tot (l : List α) (r : RollingList α) :
    (addAll r l).tot = r.tot + l.length := by
  induction l generalizing r with
  | nil => rfl
  | cons x l ih => rw [addAll_cons, ih, add_tot]; simp; omega

theorem add_items (r : RollingList α) (x : α) :
    (add r x).items = (if 2 * r.size ≤ r.items.length then r.items.drop r.size else r.items) ++ [x] := by
  unfold add roll
  split <;> simp_all

theorem add_length_le (r : RollingList α) (x : α) (hS : 1 ≤ r.size)
    (h : r.items.length ≤ 2 * r.size) : (add r x).items.length ≤ 2 * r.size := by
  rw [add_items]
  split <;> simp <;> omega

theorem addAll_length_le (l : List α) (r : RollingList α) (hS : 1 ≤ r.size)
    (h : r.items.length ≤ 2 * r.size) : (addAll r l).items.length ≤ 2 * r.size := by
  induction l generalizing r with
  | nil => exact h
  | cons x l ih =>
      rw [addAll_cons]
      have h1 := add_length_le r x hS h
      have h2 := add_size r x
      have := ih (add r x) (by omega) (by omega)
      omega

theorem suffix_append_same {l s : List α} (h : s <:+ l) (m : List α) :
    s ++ m <:+ l ++ m := by
  obtain ⟨u, hu⟩ := h
  exact ⟨u, by rw [← List.append_assoc, hu]⟩

theorem add_items_suffix (r : RollingList α) (x : α) :
    (add r x).items <:+ r.items ++ [x] := by
  rw [add_items]
  split
  · exact suffix_append_same (List.drop_suffix r.size r.items) [x]
  · exact List.suffix_refl _

theorem addAll_items_suffix (l : List α) (r : RollingList α) :
    (addAll r l).items <:+ r.items ++ l := by
  induction l generalizing r with
  | nil => simp [addAll]
  | cons x l ih =>
      rw [addAll_cons]
      have h1 := ih (add r x)
      have h2 : (add r x).items ++ l <:+ (r.items ++ [x]) ++ l :=
        suffix_append_same (add_items_suffix r x) l
      have := h1.trans h2
      simpa using this

theorem suffix_eq_drop {l s : List α} (h : s <:+ l) :
    s = l.drop (l.length - s.length) := by
  obtain ⟨u, hu⟩ := h
  subst hu
  simp

/-! ## Helper lemmas for NetworkTransport -/

theorem finishRPC_err_of_states (s s2 : TransportState) (c c2 : NetConn) (o : Oracle α) :
    (finishRPC s c o).err = (finishRPC s2 c2 o).err := by
  unfold finishRPC
  cases o.send <;> simp
  cases o.decode <;> simp

theorem finishRPC_shutdown (s : TransportState) (c : NetConn) (o : Oracle α)
    (h : isShutdown s = true) :
    (finishRPC s c o).state = s
  ∧ ((finishRPC s c o).offered = true → (finishRPC s c o).releasedOnReturn = true) := by
  unfold finishRPC returnConn
  cases o.send <;> simp
  cases o.decode <;> simp [h]

theorem finishRPC_disposition (s : TransportState) (c : NetConn) (o : Oracle α) :
    ((o.send ≠ .ok ∨ o.decode = .errStringFail ∨ o.decode = .respFail) →
        (finishRPC s c o).offered = false ∧ (finishRPC s c o).releasedInCall = true)
  ∧ ((finishRPC s c o).offered = true → o.send = .ok ∧ ∃ e v, o.decode = .ok e v) := by
  unfold finishRPC
  cases o.send <;> simp
  cases o.decode <;> simp

theorem finishRPC_rpcError (s : TransportState) (c : NetConn) (o : Oracle α)
    (e : String) (v : α) (hs : o.send = .ok) (hd : o.decode = .ok e v) (he : e ≠ "") :
    (finishRPC s c o).err = some (.rpcErr e)
  ∧ (finishRPC s c o).offered = true
  ∧ (finishRPC s c o).releasedInCall = false := by
  unfold finishRPC
  rw [hs, hd]
  simp [he]

theorem getPooledConn_clear (s : TransportState) (target : String) :
    getPooledConn (clearShutdown s) target
      = ((getPooledConn s target).1, clearShutdown (getPooledConn s target).2) := by
  unfold getPooledConn clearShutdown
  cases hl : (s.connPool target).getLast? <;> simp [hl]

theorem getPooledConn_isShutdown (s : TransportState) (target : String) :
    isShutdown (getPooledConn s target).2 = isShutdown s := by
  unfold getPooledConn isShutdown
  cases hl : (s.connPool target).getLast? <;> simp [hl]

theorem genericRPC_err_clear (s : TransportState) (target : String) (o : Oracle α) :
    (genericRPC (clearShutdown s) target o).err = (genericRPC s target o).err := by
  unfold genericRPC
  rw [getPooledConn_clear]
  cases hgp : getPooledConn s target with
  | mk oc s1 =>
    cases oc with
    | some c => exact finishRPC_err_of_states _ _ _ _ o
    | none =>
      cases o.dial with
      | fail => rfl
      | ok c => exact finishRPC_err_of_states _ _ _ _ o

theorem genericRPC_shutdown_state (s : TransportState) (target : String) (o : Oracle α)
    (h : isShutdown s = true) :
    (genericRPC s target o).state = (getPooledConn s target).2
  ∧ ((genericRPC s target o).offered = true →
      (genericRPC s target o).releasedOnReturn = true) := by
  have hsd := getPooledConn_isShutdown s target
  unfold genericRPC
  cases hgp : getPooledConn s target with
  | mk oc s1 =>
    rw [hgp] at hsd
    cases oc with
    | some c => exact finishRPC_shutdown s1 c o (by rw [hsd]; exact h)
    | none =>
      cases o.dial with
      | fail => exact ⟨rfl, by simp⟩
      | ok c => exact finishRPC_shutdown s1 _ o (by rw [hsd]; exact h)

/-! ## Claim theorems about RollingList -/

/-- Claim C1: for every RollingList state and every integer index,
`GetItem(index)` with `oldestCached = tot - len(buffer)` returns the
"too late" error exactly when `index < oldestCached`, the "not found"
error exactly when `index - oldestCached ≥ len(buffer)`, and otherwise
returns the buffered item at offset `index - oldestCached` with no
error. -/
theorem getItem_characterization (r : RollingList α) (index : Int) :
    (getItem r index = .error .tooLate ↔ index < (r.tot : Int) - r.items.length)
  ∧ (getItem r index = .error .keyNotFound ↔
      (r.items.length : Int) ≤ index - ((r.tot : Int) - r.items.length))
  ∧ (∀ x, getItem r index = .ok x ↔
      (r.tot : Int) - r.items.length ≤ index
        ∧ index - ((r.tot : Int) - r.items.length) < (r.items.length : Int)
        ∧ r.items.get? (index - ((r.tot : Int) - r.items.length)).toNat = some x) := by
  unfold getItem
  split_ifs with h1 h2
  · refine ⟨by simp [h1], by simp; omega, fun x => by simp; omega⟩
  · refine ⟨by simp; omega, by simp [h2], fun x => by simp; omega⟩
  · refine ⟨by simp; omega, by simp; omega, fun x => ?_⟩
    have hn : (index - ((r.tot : Int) - r.items.length)).toNat < r.items.length := by omega
    have hg : r.items.get? (index - ((r.tot : Int) - r.items.length)).toNat
        = some (r.items.get ⟨(index - ((r.tot : Int) - r.items.length)).toNat, hn⟩) :=
      List.get?_eq_get hn
    constructor
    · intro h
      refine ⟨by omega, by omega, ?_⟩
      rw [hg]
      simpa using h
    · intro ⟨_, _, h⟩
      rw [hg] at h
      simpa using h

/-- Concrete witness for `getItem_characterization`: the state
`size 3, tot 7, buffer [3, 4, 5, 6]` hits all three branches. -/
theorem getItem_characterization_witness :
    getItem (⟨3, 7, [3, 4, 5, 6]⟩ : RollingList Nat) 0 = .error .tooLate
  ∧ getItem (⟨3, 7, [3, 4, 5, 6]⟩ : RollingList Nat) 7 = .error .keyNotFound
  ∧ getItem (⟨3, 7, [3, 4, 5, 6]⟩ : RollingList Nat) 6 = .ok 6 :=
  ⟨(getItem_characterization ⟨3, 7, [3, 4, 5, 6]⟩ 0).1.mpr (by decide),
   (getItem_characterization ⟨3, 7, [3, 4, 5, 6]⟩ 7).2.1.mpr (by decide),
   ((getItem_characterization ⟨3, 7, [3, 4, 5, 6]⟩ 6).2.2 6).mpr
     ⟨by decide, by decide, by decide⟩⟩

/-- Claim C2 counterexample: with window size `S = 0` (a constructible
RollingList), the very first `Add` triggers a `Roll` (its guard
`len(items) >= 2*size` holds on the empty buffer), and immediately
after that roll the buffer length is not in `[S, 2S) = [0, 0)`; so the
claim fails as stated for every `S`. -/
theorem rolling_window_counterexample :
    2 * (addAll (newRollingList 0) ([] : List Nat)).size
        ≤ (addAll (newRollingList 0) ([] : List Nat)).items.length
  ∧ ¬((roll (addAll (newRollingList 0) ([] : List Nat))).items.length
        < 2 * (addAll (newRollingList 0) ([] : List Nat)).size) := by
  decide

/-- Claim C2 (amended: for window size `S ≥ 1`): for every sequence of
`Add` calls on a RollingList constructed with window size `S`, `tot`
equals the number of items appended, the buffer holds exactly the most
recent `len(buffer)` items of the appended sequence in order (global
indices `tot - len(buffer)` through `tot - 1`), and whenever an `Add`
triggers a compaction the buffer length immediately after the `Roll`
lies in `[S, 2S)`. -/
theorem rolling_window_invariant (S : Nat) (hS : 1 ≤ S) (l : List α) :
    (addAll (newRollingList S) l).tot = l.length
  ∧ (addAll (newRollingList S) l).items
      = l.drop (l.length - (addAll (newRollingList S) l).items.length)
  ∧ (2 * S ≤ (addAll (newRollingList S) l).items.length →
        S ≤ (roll (addAll (newRollingList S) l)).items.length
      ∧ (roll (addAll (newRollingList S) l)).items.length < 2 * S) := by
  have hsz : (addAll (newRollingList S) l).size = S := addAll_size l (newRollingList S)
  have htot : (addAll (newRollingList S) l).tot = l.length := by
    have := addAll_tot l (newRollingList S)
    simpa [newRollingList] using this
  have hsuf : (addAll (newRollingList S) l).items <:+ l := by
    have := addAll_items_suffix l (newRollingList S)
    simpa [newRollingList] using this
  have hlen : (addAll (newRollingList S) l).items.length ≤ 2 * S := by
    have := addAll_length_le l (newRollingList S) (by simpa [newRollingList] using hS)
      (by simp [newRollingList])
    simpa [newRollingList] using this
  have hroll : (roll (addAll (newRollingList S) l)).items.length
      = (addAll (newRollingList S) l).items.length - S := by
    unfold roll
    simp [hsz]
  exact ⟨htot, suffix_eq_drop hsuf, fun htrig => by omega⟩

/-- Concrete witness for `rolling_window_invariant` at `S = 3` with the
seven items `0..6`. -/
theorem rolling_window_invariant_witness :
    1 ≤ 3
  ∧ (addAll (newRollingList 3) [0, 1, 2, 3, 4, 5, 6] : RollingList Nat).tot
      = [0, 1, 2, 3, 4, 5, 6].length :=
  ⟨by decide, (rolling_window_invariant 3 (by decide) [0, 1, 2, 3, 4, 5, 6]).1⟩

/-- Claim C7: with `S = 3`, after adding the items `0` through `6` the
state has `tot = 7`, exactly one compaction has occurred (at the 7th
`Add`, which keeps the newest 3 items `[3, 4, 5]` before appending `6`),
`GetItem(0)` is "too late", `GetItem(6)` is the item with global index
6, and `GetItem(7)` is "not found". -/
theorem seven_adds_example :
    (addAllCount (newRollingList 3) ([0, 1, 2, 3, 4, 5, 6] : List Nat)).2 = 1
  ∧ (addAllCount (newRollingList 3) ([0, 1, 2, 3, 4, 5, 6] : List Nat)).1.tot = 7
  ∧ (addAllCount (newRollingList 3) ([0, 1, 2, 3, 4, 5, 6] : List Nat)).1
      = addAll (newRollingList 3) [0, 1, 2, 3, 4, 5, 6]
  ∧ (addAllCount (newRollingList 3) ([0, 1, 2, 3, 4, 5, 6] : List Nat)).1.items
      = [3, 4, 5, 6]
  ∧ getItem (addAllCount (newRollingList 3) ([0, 1, 2, 3, 4, 5, 6] : List Nat)).1 0
      = .error .tooLate
  ∧ getItem (addAllCount (newRollingList 3) ([0, 1, 2, 3, 4, 5, 6] : List Nat)).1 6
      = .ok 6
  ∧ getItem (addAllCount (newRollingList 3) ([0, 1, 2, 3, 4, 5, 6] : List Nat)).1 7
      = .error .keyNotFound :=
  ⟨by decide, by decide, by decide, by decide, rfl, rfl, rfl⟩

/-- Claim C10: `Roll` is only safe when the buffer holds at least
`size` items — with `len(items) < size` the slice `items[size:]` is out
of bounds (`rollChecked` reports the panic as `none`) — while under the
`Add`-only discipline the inner `Roll` runs only when
`len(items) ≥ 2*size`, where its slice access is in bounds; indeed a
checked `Add` never panics from any state. -/
theorem roll_bounds (r : RollingList α) (x : α) :
    (r.items.length < r.size → rollChecked r = none)
  ∧ (2 * r.size ≤ r.items.length → rollChecked r = some (roll r))
  ∧ addChecked r x = some (add r x) := by
  refine ⟨fun h => ?_, fun h => ?_, ?_⟩
  · unfold rollChecked
    rw [if_neg (by omega)]
  · unfold rollChecked
    rw [if_pos (by omega)]
  · unfold addChecked add rollChecked
    split
    · next h =>
        rw [if_pos (by omega)]
        rfl
    · rfl

/-- Concrete witness for `roll_bounds`: `size 2` with one buffered item
panics; `size 1` with two buffered items rolls in bounds. -/
theorem roll_bounds_witness :
    rollChecked (⟨2, 1, [5]⟩ : RollingList Nat) = none
  ∧ rollChecked (⟨1, 2, [7, 8]⟩ : RollingList Nat) = some (roll ⟨1, 2, [7, 8]⟩)
  ∧ addChecked (⟨1, 2, [7, 8]⟩ : RollingList Nat) 9 = some (add ⟨1, 2, [7, 8]⟩ 9) :=
  ⟨(roll_bounds ⟨2, 1, [5]⟩ 0).1 (by decide),
   (roll_bounds ⟨1, 2, [7, 8]⟩ 0).2.1 (by decide),
   (roll_bounds ⟨1, 2, [7, 8]⟩ 9).2.2⟩

/-! ## Claim theorems about NetworkTransport -/

/-- Claim C3 counterexample: on a transport whose `Close` has completed
(shutdown signaled), a `Sync` whose dial, send and both decodes succeed
with an empty error string returns no error at all — so it is false
that any subsequent call to `Sync` fails with an error: the outbound
path of `genericRPC` never consults the shutdown signal. -/
theorem sync_after_close_counterexample :
    isShutdown (closedTransport 4) = true
  ∧ (genericRPC (closedTransport 4) "a"
      { dial := .ok connA, send := .ok, decode := .ok "" (0 : Nat) }).err = none :=
  ⟨rfl, rfl⟩

/-- Claim C3 (amended): after `Close` has completed, `Sync` does not
consult the shutdown signal: its returned error is exactly what it
would be on the same transport without the shutdown (so the call can
still succeed, or block on I/O); the only effect of shutdown on the
outbound path is that the pool no longer admits connections — the final
pool state is the pre-call pool minus the popped connection, and a
connection offered back after shutdown is released. -/
theorem sync_after_close (s : TransportState) (target : String) (o : Oracle α)
    (h : isShutdown s = true) :
    (genericRPC s target o).err = (genericRPC (clearShutdown s) target o).err
  ∧ (genericRPC s target o).state = (getPooledConn s target).2
  ∧ ((genericRPC s target o).offered = true →
      (genericRPC s target o).releasedOnReturn = true) :=
  ⟨(genericRPC_err_clear s target o).symm,
   (genericRPC_shutdown_state s target o h).1,
   (genericRPC_shutdown_state s target o h).2⟩

/-- Concrete witness for `sync_after_close` on a closed transport with
a fully successful oracle. -/
theorem sync_after_close_witness :
    (genericRPC (closedTransport 4) "a"
        { dial := .ok connA, send := .ok, decode := .ok "ouch" (0 : Nat) }).err
      = (genericRPC (clearShutdown (closedTransport 4)) "a"
        { dial := .ok connA, send := .ok, decode := .ok "ouch" (0 : Nat) }).err
  ∧ (genericRPC (closedTransport 4) "a"
        { dial := .ok connA, send := .ok, decode := .ok "ouch" (0 : Nat) }).state
      = (getPooledConn (closedTransport 4) "a").2 :=
  ⟨(sync_after_close (closedTransport 4) "a"
      { dial := .ok connA, send := .ok, decode := .ok "ouch" (0 : Nat) } rfl).1,
   (sync_after_close (closedTransport 4) "a"
      { dial := .ok connA, send := .ok, decode := .ok "ouch" (0 : Nat) } rfl).2.1⟩

/-- Claim C4: if the send stage or either decode stage of an outbound
call fails, the connection (when one was obtained) is released during
the call and is not offered back to the pool; the call offers the
connection back only when the send succeeded and both the error string
and the response value decoded successfully. -/
theorem conn_disposition (s : TransportState) (target : String) (o : Oracle α) :
    ((o.send ≠ .ok ∨ o.decode = .errStringFail ∨ o.decode = .respFail) →
        (genericRPC s target o).offered = false
      ∧ ((genericRPC s target o).conn.isSome = true →
          (genericRPC s target o).releasedInCall = true))
  ∧ ((genericRPC s target o).offered = true →
      o.send = .ok ∧ ∃ e v, o.decode = .ok e v) := by
  unfold genericRPC
  cases hgp : getPooledConn s target with
  | mk oc s1 =>
    cases oc with
    | some c =>
        exact ⟨fun h => ⟨((finishRPC_disposition s1 c o).1 h).1,
            fun _ => ((finishRPC_disposition s1 c o).1 h).2⟩,
          (finishRPC_disposition s1 c o).2⟩
    | none =>
      cases o.dial with
      | fail => exact ⟨fun h => ⟨rfl, by simp⟩, by simp⟩
      | ok c =>
          exact ⟨fun h => ⟨((finishRPC_disposition s1 _ o).1 h).1,
              fun _ => ((finishRPC_disposition s1 _ o).1 h).2⟩,
            (finishRPC_disposition s1 _ o).2⟩

/-- Concrete witness for `conn_disposition`: a failing encode on a
dialed connection closes it without pooling it. -/
theorem conn_disposition_witness :
    (genericRPC (initTransport 4) "a"
        { dial := .ok connA, send := .encodeFail, decode := .ok "" (0 : Nat) }).offered = false
  ∧ (genericRPC (initTransport 4) "a"
        { dial := .ok connA, send := .encodeFail, decode := .ok "" (0 : Nat) }).releasedInCall
      = true :=
  ⟨((conn_disposition (initTransport 4) "a"
      { dial := .ok connA, send := .encodeFail, decode := .ok "" (0 : Nat) }).1
      (Or.inl (by decide))).1,
   ((conn_disposition (initTransport 4) "a"
      { dial := .ok connA, send := .encodeFail, decode := .ok "" (0 : Nat) }).1
      (Or.inl (by decide))).2 rfl⟩

/-- Claim C5: when the response decodes successfully but carries a
non-empty error string, `genericRPC` returns that error to the caller,
the connection is offered back to the pool, and it was not released
during the call. -/
theorem rpc_error_surfaced (s : TransportState) (target : String) (o : Oracle α)
    (e : String) (v : α) (hs : o.send = .ok) (hd : o.decode = .ok e v) (he : e ≠ "")
    (hdial : o.dial ≠ .fail) :
    (genericRPC s target o).err = some (.rpcErr e)
  ∧ (genericRPC s target o).offered = true
  ∧ (genericRPC s target o).releasedInCall = false := by
  unfold genericRPC
  cases hgp : getPooledConn s target with
  | mk oc s1 =>
    cases oc with
    | some c => exact finishRPC_rpcError s1 c o e v hs hd he
    | none =>
      cases hdo : o.dial with
      | fail => exact absurd hdo hdial
      | ok c => exact finishRPC_rpcError s1 _ o e v hs hd he

/-- Concrete witness for `rpc_error_surfaced`. -/
theorem rpc_error_surfaced_witness :
    (genericRPC (initTransport 4) "a"
        { dial := .ok connA, send := .ok, decode := .ok "boom" (0 : Nat) }).err
      = some (.rpcErr "boom")
  ∧ (genericRPC (initTransport 4) "a"
        { dial := .ok connA, send := .ok, decode := .ok "boom" (0 : Nat) }).offered = true :=
  ⟨(rpc_error_surfaced (initTransport 4) "a"
      { dial := .ok connA, send := .ok, decode := .ok "boom" (0 : Nat) }
      "boom" 0 rfl rfl (by decide) (by decide)).1,
   (rpc_error_surfaced (initTransport 4) "a"
      { dial := .ok connA, send := .ok, decode := .ok "boom" (0 : Nat) }
      "boom" 0 rfl rfl (by decide) (by decide)).2.1⟩

/-- Claim C6: `returnConn` admits a connection to its target's idle
slice exactly when the transport is not shut down and the idle count is
strictly below `maxPool` (appending it at the end), and releases it
otherwise leaving the pool unchanged; `getPooledConn` hands out the
last (most recently returned) idle connection and removes it — so the
connection just returned is the next one handed out (LIFO). -/
theorem pool_admission_lifo (s : TransportState) (c : NetConn) :
    ((isShutdown s = false ∧ (s.connPool c.target).length < s.maxPool) →
        (returnConn s c).2 = false
      ∧ (returnConn s c).1.connPool c.target = s.connPool c.target ++ [c]
      ∧ (getPooledConn (returnConn s c).1 c.target).1 = some c)
  ∧ (¬(isShutdown s = false ∧ (s.connPool c.target).length < s.maxPool) →
        (returnConn s c).2 = true ∧ (returnConn s c).1 = s)
  ∧ (∀ t, (getPooledConn s t).1 = (s.connPool t).getLast?
      ∧ (getPooledConn s t).2.connPool t = (s.connPool t).dropLast) := by
  refine ⟨fun h => ?_, fun h => ?_, fun t => ?_⟩
  · unfold returnConn
    rw [if_pos h]
    refine ⟨rfl, by simp, ?_⟩
    unfold getPooledConn
    simp
  · unfold returnConn
    rw [if_neg h]
    exact ⟨rfl, rfl⟩
  · cases hl : (s.connPool t).getLast? with
    | none =>
        have hnil : s.connPool t = [] := by
          cases hc : s.connPool t with
          | nil => rfl
          | cons a l => rw [hc] at hl; simp at hl
        constructor <;> simp [getPooledConn, hl, hnil]
    | some c' =>
        constructor <;> simp [getPooledConn, hl]

/-- Concrete witness for `pool_admission_lifo`: returning a connection
to a fresh transport pools it and the next `getPooledConn` hands it
back; returning it to a closed transport releases it. -/
theorem pool_admission_lifo_witness :
    (returnConn (initTransport 4) connA).2 = false
  ∧ (getPooledConn (returnConn (initTransport 4) connA).1 "a").1 = some connA
  ∧ (returnConn (closedTransport 4) connA).2 = true :=
  ⟨((pool_admission_lifo (initTransport 4) connA).1 ⟨rfl, by decide⟩).1,
   ((pool_admission_lifo (initTransport 4) connA).1 ⟨rfl, by decide⟩).2.2,
   ((pool_admission_lifo (closedTransport 4) connA).2.1 (by simp [isShutdown, closedTransport])).1⟩

/-- Claim C8: `Close` is idempotent: from a freshly constructed
transport the first call sets the shutdown flag, closes the broadcast
channel and the stream layer (and does not panic on the channel close),
and a second call is a no-op returning the very same state — no
double-close panic. -/
theorem close_idempotent (s : TransportState)
    (h1 : s.shutdown = false) (h2 : s.shutdownChClosed = false) :
    ∃ s1, transportClose s = some s1
      ∧ s1.shutdown = true ∧ s1.shutdownChClosed = true ∧ s1.streamClosed = true
      ∧ s1.connPool = s.connPool
      ∧ transportClose s1 = some s1 := by
  refine ⟨{ s with shutdown := true, shutdownChClosed := true, streamClosed := true },
    ?_, rfl, rfl, rfl, rfl, ?_⟩
  · unfold transportClose
    rw [if_pos h1, if_neg (by simp [h2])]
  · unfold transportClose
    simp

/-- Concrete witness for `close_idempotent` on a freshly constructed
transport. -/
theorem close_idempotent_witness :
    ∃ s1, transportClose (initTransport 4) = some s1
      ∧ s1.shutdown = true ∧ s1.shutdownChClosed = true ∧ s1.streamClosed = true
      ∧ s1.connPool = (initTransport 4).connPool
      ∧ transportClose s1 = some s1 :=
  close_idempotent (initTransport 4) rfl rfl

/-- Claim C9: the reply stage of `handleCommand` encodes the error
string first (the empty string when the reply carries no error) and the
response value second, in that fixed order, regardless of whether the
call succeeded; and `decodeResponse` reads an error string first and a
response value second, recovering exactly that pair. -/
theorem reply_wire_order (wire : List (GobItem α)) (resp : RPCResponse α) :
    handleReply wire resp = wire ++ [.str (errString resp), .val resp.response]
  ∧ decodeResponseWire (handleReply [] resp) = some (errString resp, resp.response)
  ∧ (resp.error = none → errString resp = "")
  ∧ (∀ e, resp.error = some e → errString resp = e) := by
  refine ⟨?_, rfl, fun h => by simp [errString, h], fun e h => by simp [errString, h]⟩
  unfold handleReply encStep
  simp

/-- Concrete witness for `reply_wire_order` on a failed call and on a
successful one. -/
theorem reply_wire_order_witness :
    handleReply [] ({ response := 5, error := some "bad" } : RPCResponse Nat)
      = [.str "bad", .val 5]
  ∧ decodeResponseWire (handleReply [] ({ response := 5, error := some "bad" } : RPCResponse Nat))
      = some ("bad", 5)
  ∧ errString ({ response := 7, error := none } : RPCResponse Nat) = "" :=
  ⟨(reply_wire_order [] { response := 5, error := some "bad" }).1,
   (reply_wire_order [] { response := 5, error := some "bad" }).2.1,
   (reply_wire_order [] ({ response := 7, error := none } : RPCResponse Nat)).2.2.1 rfl⟩

end Babble
